import Mathlib

/-!
Verification of the conversational state machine of `app.py`, a Streamlit
English/French translator. The script keeps one session-scoped conversation
(`st.session_state.messages`, a list of role/content dicts) and three input
surfaces (chat text box, audio file uploader, microphone recorder), each of
which calls out to external OpenAI endpoints (chat completion, transcription,
speech synthesis) and appends entries to the conversation.

The embedding models each external endpoint as a function from the request the
script builds to `Option result`; `none` stands for a raised exception (the
script wraps every call in try/except). Each tab's code block is embedded as a
function producing the trace of observable events it performs in order:
conversation appends, outbound calls, error messages, audio playback. Python
truthiness tests on `Optional[str]` results (`if translation:`) are modelled
exactly: `None` and the empty string are both falsy.
-/

namespace App

/-- One role/content dict, used both for conversation entries
(`st.session_state.messages`) and for chat-API messages. -/
structure Message where
  role : String
  content : String
deriving DecidableEq, Repr

/-- Request built by `translate_text`: model name plus messages list
(`openai.chat.completions.create(model=..., messages=...)`). -/
structure ChatRequest where
  model : String
  messages : List Message
deriving DecidableEq, Repr

/-- Request built for `openai.audio.transcriptions.create`: model name plus a
file object carrying a name (the format hint) and its bytes. -/
structure TranscriptionRequest where
  model : String
  fileName : String
  fileBytes : List Nat
deriving DecidableEq, Repr

/-- Request built by `speak_text` for `openai.audio.speech.create`:
model, voice, and input text. -/
structure SpeechRequest where
  model : String
  voice : String
  input : String
deriving DecidableEq, Repr

/-- The three external OpenAI endpoints. `none` models a raised exception
(network error, quota, malformed response); `some` a successful response body:
the chat completion's message content, the transcription's text, or the
synthesized audio bytes. -/
structure Env where
  chat_completions_create : ChatRequest → Option String
  transcriptions_create : TranscriptionRequest → Option String
  speech_create : SpeechRequest → Option (List Nat)

/-- Observable events of one script run, in program order. -/
inductive Event where
  | append : Message → Event
  | chatCall : ChatRequest → Event
  | transcribeCall : TranscriptionRequest → Event
  | speechCall : SpeechRequest → Event
  | errorShown : String → Event
  | audioPlayed : List Nat → Event
deriving DecidableEq, Repr

/-- The fixed system instruction of `translate_text` (`system_prompt`). -/
def system_prompt : String :=
  "You are a hyper-efficient translation engine. Your sole function is to " ++
  "detect if the user\x27s input is English or French and provide the translation in the other language. " ++
  "Output ONLY the translated text and nothing else. Do not explain, do not greet."

/-- The messages list `translate_text` builds: the fixed system instruction and
the single utterance to translate, nothing else. -/
def translate_messages (text_to_translate : String) : List Message :=
  [Message.mk "system" system_prompt, Message.mk "user" text_to_translate]

/-- The full chat-completion request `translate_text` issues for one utterance. -/
def chatRequestFor (text_to_translate : String) : ChatRequest :=
  ChatRequest.mk "gpt-4o" (translate_messages text_to_translate)

/-- Error message shown by `translate_text` on an API exception. -/
def apiErrorMsg : String := "An error occurred with the OpenAI API"

/-- `translate_text`: builds the two-message request, calls the chat endpoint,
returns the response content, or shows an error and returns `None` on
exception. Result: (events performed, returned value). -/
def translate_text (env : Env) (text_to_translate : String) :
    List Event × Option String :=
  match env.chat_completions_create (chatRequestFor text_to_translate) with
  | some content =>
      ([Event.chatCall (chatRequestFor text_to_translate)], some content)
  | none =>
      ([Event.chatCall (chatRequestFor text_to_translate),
        Event.errorShown apiErrorMsg], none)

/-- The text-to-speech request `speak_text` issues. -/
def speechRequestFor (text : String) : SpeechRequest :=
  SpeechRequest.mk "gpt-4o-mini-tts" "alloy" text

/-- Error message shown by `speak_text` on an API exception. -/
def ttsErrorMsg : String := "TTS error"

/-- `speak_text`: calls the speech endpoint, returns the audio bytes, or shows
an error and returns `None` on exception. -/
def speak_text (env : Env) (text : String) : List Event × Option (List Nat) :=
  match env.speech_create (speechRequestFor text) with
  | some audio_bytes => ([Event.speechCall (speechRequestFor text)], some audio_bytes)
  | none => ([Event.speechCall (speechRequestFor text),
              Event.errorShown ttsErrorMsg], none)

/-- The chat tab handler, for one submitted prompt: append the user entry,
translate, and if the result is truthy (not `None`, not empty) append the
assistant entry, then speak it and play the audio if those bytes are truthy. -/
def chatTab (env : Env) (prompt : String) : List Event :=
  Event.append (Message.mk "user" prompt) ::
    (translate_text env prompt).1 ++
    (match (translate_text env prompt).2 with
      | some translation =>
          if translation = "" then []
          else
            Event.append (Message.mk "assistant" translation) ::
              (speak_text env translation).1 ++
              (match (speak_text env translation).2 with
                | some audio_bytes =>
                    if audio_bytes = [] then [] else [Event.audioPlayed audio_bytes]
                | none => [])
      | none => [])

/-- Content of the user entry appended for a transcription
(the f-string with the microphone emoji). -/
def transcriptTag (transcribed_text : String) : String :=
  "🎤 *Transcription:* " ++ transcribed_text

/-- Error message shown by the two audio tabs when transcription raises. -/
def transcriptionErrorMsg : String := "An error occurred during transcription"

/-- The file-uploader tab handler, for one uploaded file. The upload's own name
is overwritten with `uploaded_audio.wav` before the transcription call. On
transcription failure nothing is appended; on success the tagged user entry is
appended, the transcript is translated, and a truthy translation is appended as
the assistant entry, spoken, and played. -/
def fileUploaderTab (env : Env) (uploaded_name : String) (audio_file : List Nat) :
    List Event :=
  Event.transcribeCall (TranscriptionRequest.mk "whisper-1" "uploaded_audio.wav" audio_file) ::
    (match env.transcriptions_create
        (TranscriptionRequest.mk "whisper-1" "uploaded_audio.wav" audio_file) with
      | none => [Event.errorShown transcriptionErrorMsg]
      | some transcribed_text =>
          Event.append (Message.mk "user" (transcriptTag transcribed_text)) ::
            (translate_text env transcribed_text).1 ++
            (match (translate_text env transcribed_text).2 with
              | some translation =>
                  if translation = "" then []
                  else
                    Event.append (Message.mk "assistant" translation) ::
                      (speak_text env translation).1 ++
                      (match (speak_text env translation).2 with
                        | some audio_bytes =>
                            if audio_bytes = [] then []
                            else [Event.audioPlayed audio_bytes]
                        | none => [])
              | none => []))

/-- The audio-recorder tab handler, for one recording's bytes. The recorded
buffer is wrapped as a file named `recorded_audio.wav`; the rest mirrors the
file-uploader tab. -/
def audioRecorderTab (env : Env) (recorded_bytes : List Nat) : List Event :=
  Event.transcribeCall (TranscriptionRequest.mk "whisper-1" "recorded_audio.wav" recorded_bytes) ::
    (match env.transcriptions_create
        (TranscriptionRequest.mk "whisper-1" "recorded_audio.wav" recorded_bytes) with
      | none => [Event.errorShown transcriptionErrorMsg]
      | some transcribed_text =>
          Event.append (Message.mk "user" (transcriptTag transcribed_text)) ::
            (translate_text env transcribed_text).1 ++
            (match (translate_text env transcribed_text).2 with
              | some translation =>
                  if translation = "" then []
                  else
                    Event.append (Message.mk "assistant" translation) ::
                      (speak_text env translation).1 ++
                      (match (speak_text env translation).2 with
                        | some audio_bytes =>
                            if audio_bytes = [] then []
                            else [Event.audioPlayed audio_bytes]
                        | none => [])
              | none => []))

/-- One unit of input: a truthy chat prompt, a truthy uploaded file (with its
original name and bytes), or a truthy recording. -/
inductive InputEvent where
  | textInput : String → InputEvent
  | fileUpload : String → List Nat → InputEvent
  | micRecording : List Nat → InputEvent

/-- Dispatch one input to its tab handler. Note the conversation is not an
argument: no handler reads it, they only append. -/
def handleInput (env : Env) : InputEvent → List Event
  | InputEvent.textInput prompt => chatTab env prompt
  | InputEvent.fileUpload uploaded_name audio_file => fileUploaderTab env uploaded_name audio_file
  | InputEvent.micRecording recorded_bytes => audioRecorderTab env recorded_bytes

/-- The conversation entries a trace appends, in order. -/
def appendedMessages (trace : List Event) : List Message :=
  trace.filterMap fun e =>
    match e with
    | Event.append m => some m
    | _ => none

/-- The conversation after one interaction: every handler only ever calls
`st.session_state.messages.append`, so the new conversation is the old one
followed by the appended entries of the trace. -/
def stepConversation (env : Env) (conv : List Message) (inp : InputEvent) :
    List Message :=
  conv ++ appendedMessages (handleInput env inp)

/-- Error message shown when the API key is missing from Streamlit secrets. -/
def keyErrorMsg : String :=
  "OpenAI API key not found. Please add it to your Streamlit secrets."

/-- Whether an event is an outbound call to an external endpoint. -/
def isExternalCall : Event → Bool
  | Event.chatCall _ => true
  | Event.transcribeCall _ => true
  | Event.speechCall _ => true
  | _ => false

/-- One run of the script, from the API-key lookup on. `apiKey` is the result
of the `st.secrets` lookup (`none` models KeyError/FileNotFoundError). Without
a key the script shows an error and `st.stop()`s before the conversation is
initialized or any tab runs; with a key it processes the run's input event, if
any. Result: (conversation after the run, events of the run). -/
def scriptRun (apiKey : Option String) (env : Env) (conv : List Message)
    (inp : Option InputEvent) : List Message × List Event :=
  match apiKey with
  | none => (conv, [Event.errorShown keyErrorMsg])
  | some _ =>
      match inp with
      | none => (conv, [])
      | some i => (conv ++ appendedMessages (handleInput env i), handleInput env i)

/-- `true` iff no speech-synthesis call occurs before the first assistant
append in the trace: the assistant entry is on the conversation before
synthesis is attempted. -/
def noSpeechBeforeAssistant : List Event → Bool
  | [] => true
  | Event.append m :: rest =>
      if m.role = "assistant" then true else noSpeechBeforeAssistant rest
  | Event.speechCall _ :: _ => false
  | _ :: rest => noSpeechBeforeAssistant rest

/-- Whether an event is a speech-synthesis call. -/
def isSpeechCall : Event → Bool
  | Event.speechCall _ => true
  | _ => false

/-- Whether a trace contains a speech-synthesis call. -/
def hasSpeechCall (trace : List Event) : Bool :=
  trace.any isSpeechCall

end App

namespace App

/-! ### Helper lemmas: the entries each tab appends, as a function of the
endpoint results. -/

theorem appendedMessages_append (a b : List Event) :
    appendedMessages (a ++ b) = appendedMessages a ++ appendedMessages b := by
  simp [appendedMessages]

/-- The conversation entries the chat tab appends: the user entry always, then
the assistant entry exactly when the translation came back truthy. -/
theorem chatTab_appends (env : Env) (prompt : String) :
    appendedMessages (chatTab env prompt) =
      Message.mk "user" prompt ::
        (match env.chat_completions_create (chatRequestFor prompt) with
          | some translation =>
              if translation = "" then [] else [Message.mk "assistant" translation]
          | none => []) := by
  rcases h : env.chat_completions_create (chatRequestFor prompt) with _ | t
  · simp [chatTab, translate_text, h, appendedMessages]
  · by_cases ht : t = ""
    · simp [chatTab, translate_text, h, ht, appendedMessages]
    · rcases hs : env.speech_create (speechRequestFor t) with _ | b
      · simp [chatTab, translate_text, speak_text, h, hs, ht, appendedMessages]
      · by_cases hb : b = [] <;>
          simp [chatTab, translate_text, speak_text, h, hs, ht, hb, appendedMessages]

/-- The conversation entries the file-uploader tab appends. -/
theorem fileUploaderTab_appends (env : Env) (uploaded_name : String)
    (audio_file : List Nat) :
    appendedMessages (fileUploaderTab env uploaded_name audio_file) =
      match env.transcriptions_create
          (TranscriptionRequest.mk "whisper-1" "uploaded_audio.wav" audio_file) with
      | none => []
      | some x =>
          Message.mk "user" (transcriptTag x) ::
            (match env.chat_completions_create (chatRequestFor x) with
              | some t => if t = "" then [] else [Message.mk "assistant" t]
              | none => []) := by
  rcases hx : env.transcriptions_create
      (TranscriptionRequest.mk "whisper-1" "uploaded_audio.wav" audio_file) with _ | x
  · simp [fileUploaderTab, hx, appendedMessages]
  · rcases h : env.chat_completions_create (chatRequestFor x) with _ | t
    · simp [fileUploaderTab, translate_text, hx, h, appendedMessages]
    · by_cases ht : t = ""
      · simp [fileUploaderTab, translate_text, hx, h, ht, appendedMessages]
      · rcases hs : env.speech_create (speechRequestFor t) with _ | b
        · simp [fileUploaderTab, translate_text, speak_text, hx, h, hs, ht, appendedMessages]
        · by_cases hb : b = [] <;>
            simp [fileUploaderTab, translate_text, speak_text, hx, h, hs, ht, hb,
              appendedMessages]

/-- The conversation entries the audio-recorder tab appends. -/
theorem audioRecorderTab_appends (env : Env) (recorded_bytes : List Nat) :
    appendedMessages (audioRecorderTab env recorded_bytes) =
      match env.transcriptions_create
          (TranscriptionRequest.mk "whisper-1" "recorded_audio.wav" recorded_bytes) with
      | none => []
      | some x =>
          Message.mk "user" (transcriptTag x) ::
            (match env.chat_completions_create (chatRequestFor x) with
              | some t => if t = "" then [] else [Message.mk "assistant" t]
              | none => []) := by
  rcases hx : env.transcriptions_create
      (TranscriptionRequest.mk "whisper-1" "recorded_audio.wav" recorded_bytes) with _ | x
  · simp [audioRecorderTab, hx, appendedMessages]
  · rcases h : env.chat_completions_create (chatRequestFor x) with _ | t
    · simp [audioRecorderTab, translate_text, hx, h, appendedMessages]
    · by_cases ht : t = ""
      · simp [audioRecorderTab, translate_text, hx, h, ht, appendedMessages]
      · rcases hs : env.speech_create (speechRequestFor t) with _ | b
        · simp [audioRecorderTab, translate_text, speak_text, hx, h, hs, ht, appendedMessages]
        · by_cases hb : b = [] <;>
            simp [audioRecorderTab, translate_text, speak_text, hx, h, hs, ht, hb,
              appendedMessages]

end App

namespace App

/-- An environment in which every external call raises. -/
def envAllFail : Env := Env.mk (fun _ => none) (fun _ => none) (fun _ => none)

/-- Claim C1: when the Translation Call fails on a text interaction, the
conversation gains exactly the user entry with the raw input — length grows by
exactly one past the pre-append length — and, whenever translation fails, no
assistant entry is appended in any input mode. -/
theorem translation_failure_appends_only_user_entry (env : Env) (conv : List Message)
    (prompt : String)
    (h : env.chat_completions_create (chatRequestFor prompt) = none) :
    stepConversation env conv (InputEvent.textInput prompt) =
      conv ++ [Message.mk "user" prompt] ∧
    (stepConversation env conv (InputEvent.textInput prompt)).length = conv.length + 1 ∧
    ((∀ r, env.chat_completions_create r = none) → ∀ inp,
      (handleInput env inp).all (fun e =>
        match e with
        | Event.append m => m.role != "assistant"
        | _ => true) = true) := by
  refine ⟨?_, ?_, ?_⟩
  · simp [stepConversation, handleInput, chatTab_appends, h]
  · simp [stepConversation, handleInput, chatTab_appends, h]
  · intro hall inp
    cases inp with
    | textInput p =>
        simp [handleInput, chatTab, translate_text, hall]
    | fileUpload n b =>
        rcases hx : env.transcriptions_create
            (TranscriptionRequest.mk "whisper-1" "uploaded_audio.wav" b) with _ | x
        · simp [handleInput, fileUploaderTab, hx]
        · simp [handleInput, fileUploaderTab, translate_text, hx, hall]
    | micRecording b =>
        rcases hx : env.transcriptions_create
            (TranscriptionRequest.mk "whisper-1" "recorded_audio.wav" b) with _ | x
        · simp [handleInput, audioRecorderTab, hx]
        · simp [handleInput, audioRecorderTab, translate_text, hx, hall]

/-- Witness for C1 at a concrete failing environment and the input of
Scenario D. -/
theorem translation_failure_appends_only_user_entry_witness :
    stepConversation envAllFail [] (InputEvent.textInput "Test") =
      [] ++ [Message.mk "user" "Test"] :=
  (translation_failure_appends_only_user_entry envAllFail [] "Test" rfl).1

/-- Claim C2: when the Transcription Call fails, the interaction appends
nothing — the conversation is unchanged — in both audio modes. -/
theorem transcription_failure_appends_nothing (env : Env) (conv : List Message)
    (uploaded_name : String) (audio_bytes : List Nat) :
    (env.transcriptions_create
        (TranscriptionRequest.mk "whisper-1" "uploaded_audio.wav" audio_bytes) = none →
      stepConversation env conv (InputEvent.fileUpload uploaded_name audio_bytes) = conv) ∧
    (env.transcriptions_create
        (TranscriptionRequest.mk "whisper-1" "recorded_audio.wav" audio_bytes) = none →
      stepConversation env conv (InputEvent.micRecording audio_bytes) = conv) := by
  constructor
  · intro h
    simp [stepConversation, handleInput, fileUploaderTab_appends, h]
  · intro h
    simp [stepConversation, handleInput, audioRecorderTab_appends, h]

/-- Witness for C2 at a concrete failing environment and a concrete upload. -/
theorem transcription_failure_appends_nothing_witness :
    stepConversation envAllFail [Message.mk "user" "hi"]
      (InputEvent.fileUpload "song.mp3" [1, 2]) = [Message.mk "user" "hi"] :=
  (transcription_failure_appends_nothing envAllFail [Message.mk "user" "hi"]
    "song.mp3" [1, 2]).1 rfl

/-- Claim C3: the conversation is append-only — after any interaction in any
input mode, the new conversation is the old one followed by some tail (no
entry mutated, removed, or reordered) and its length never decreases. -/
theorem conversation_append_only (env : Env) (conv : List Message) (inp : InputEvent) :
    (∃ tail, stepConversation env conv inp = conv ++ tail) ∧
    conv.length ≤ (stepConversation env conv inp).length := by
  refine ⟨⟨appendedMessages (handleInput env inp), rfl⟩, ?_⟩
  simp [stepConversation]

/-- Claim C8: a run with the API key absent leaves the conversation untouched,
issues no external call, and appends nothing, whatever input might be pending. -/
theorem missing_api_key_halts (env : Env) (conv : List Message)
    (inp : Option InputEvent) :
    (scriptRun none env conv inp).1 = conv ∧
    (scriptRun none env conv inp).2.all (fun e => !isExternalCall e) = true ∧
    appendedMessages (scriptRun none env conv inp).2 = [] :=
  ⟨rfl, rfl, rfl⟩

/-- Claim C9: the transcription request of the file-uploader flow always names
the file `uploaded_audio.wav`, whatever the upload's real name and bytes: the
first event is the transcription call with that constant name, and every
transcription call in the trace carries it. -/
theorem upload_format_hint_constant (env : Env) (uploaded_name : String)
    (audio_bytes : List Nat) :
    (fileUploaderTab env uploaded_name audio_bytes).head? =
      some (Event.transcribeCall
        (TranscriptionRequest.mk "whisper-1" "uploaded_audio.wav" audio_bytes)) ∧
    (fileUploaderTab env uploaded_name audio_bytes).all (fun e =>
      match e with
      | Event.transcribeCall r => r.fileName == "uploaded_audio.wav"
      | _ => true) = true := by
  refine ⟨rfl, ?_⟩
  rcases hx : env.transcriptions_create
      (TranscriptionRequest.mk "whisper-1" "uploaded_audio.wav" audio_bytes) with _ | x
  · simp [fileUploaderTab, hx]
  · rcases h : env.chat_completions_create (chatRequestFor x) with _ | t
    · simp [fileUploaderTab, translate_text, hx, h]
    · by_cases ht : t = ""
      · simp [fileUploaderTab, translate_text, hx, h, ht]
      · rcases hs : env.speech_create (speechRequestFor t) with _ | b
        · simp [fileUploaderTab, translate_text, speak_text, hx, h, hs, ht]
        · by_cases hb : b = [] <;>
            simp [fileUploaderTab, translate_text, speak_text, hx, h, hs, ht, hb]

end App

namespace App

/-- Environment whose chat endpoint succeeds with the empty string and whose
other endpoints fail. -/
def envEmptyTranslation : Env :=
  Env.mk (fun _ => some "") (fun _ => none) (fun _ => none)

/-- Counterexample to C4 as stated: a Translation Call that succeeds with the
empty string yields only the user entry — the truthiness guard drops the
assistant entry — so the conversation does not gain two entries. -/
theorem text_success_two_entries_cex :
    envEmptyTranslation.chat_completions_create
      (chatRequestFor "Hello, how are you?") = some "" ∧
    stepConversation envEmptyTranslation [] (InputEvent.textInput "Hello, how are you?") ≠
      [] ++ [Message.mk "user" "Hello, how are you?", Message.mk "assistant" ""] := by
  refine ⟨rfl, ?_⟩
  decide

/-- Claim C4 (amended): for every text input on which the Translation Call
succeeds with a non-empty result, the conversation gains exactly the user entry
with the raw input followed by the assistant entry with the unmodified
translation. -/
theorem text_success_two_entries (env : Env) (conv : List Message) (s t : String)
    (h : env.chat_completions_create (chatRequestFor s) = some t) (ht : t ≠ "") :
    stepConversation env conv (InputEvent.textInput s) =
      conv ++ [Message.mk "user" s, Message.mk "assistant" t] := by
  simp [stepConversation, handleInput, chatTab_appends, h, ht]

/-- Environment realizing Scenario A's faked translation. -/
def envScenarioA : Env :=
  Env.mk (fun _ => some "Bonjour, comment vas-tu?") (fun _ => none) (fun _ => none)

/-- Witness for amended C4 at Scenario A. -/
theorem text_success_two_entries_witness :
    stepConversation envScenarioA [] (InputEvent.textInput "Hello, how are you?") =
      [] ++ [Message.mk "user" "Hello, how are you?",
        Message.mk "assistant" "Bonjour, comment vas-tu?"] :=
  text_success_two_entries envScenarioA [] "Hello, how are you?"
    "Bonjour, comment vas-tu?" rfl (by decide)

/-- Environment where transcription succeeds and translation succeeds with the
empty string. -/
def envEmptyAudioTranslation : Env :=
  Env.mk (fun _ => some "") (fun _ => some "Good morning") (fun _ => none)

/-- Counterexample to C5 as stated: with a successful transcript and a
Translation Call succeeding with the empty string, the upload flow appends only
the tagged user entry, not two entries. -/
theorem audio_success_two_entries_cex :
    envEmptyAudioTranslation.transcriptions_create
      (TranscriptionRequest.mk "whisper-1" "uploaded_audio.wav" [0]) = some "Good morning" ∧
    envEmptyAudioTranslation.chat_completions_create
      (chatRequestFor "Good morning") = some "" ∧
    stepConversation envEmptyAudioTranslation [] (InputEvent.fileUpload "morning.wav" [0]) ≠
      [] ++ [Message.mk "user" (transcriptTag "Good morning"),
        Message.mk "assistant" ""] := by
  refine ⟨rfl, rfl, ?_⟩
  decide

/-- Claim C5 (amended): for every audio interaction whose transcription
succeeds with transcript x and whose translation succeeds with a non-empty
result t, the conversation gains exactly the tagged user transcription entry
followed by the assistant entry t, in both audio modes. -/
theorem audio_success_two_entries (env : Env) (conv : List Message)
    (uploaded_name : String) (audio_bytes : List Nat) (x t : String)
    (hchat : env.chat_completions_create (chatRequestFor x) = some t) (ht : t ≠ "") :
    (env.transcriptions_create
        (TranscriptionRequest.mk "whisper-1" "uploaded_audio.wav" audio_bytes) = some x →
      stepConversation env conv (InputEvent.fileUpload uploaded_name audio_bytes) =
        conv ++ [Message.mk "user" (transcriptTag x), Message.mk "assistant" t]) ∧
    (env.transcriptions_create
        (TranscriptionRequest.mk "whisper-1" "recorded_audio.wav" audio_bytes) = some x →
      stepConversation env conv (InputEvent.micRecording audio_bytes) =
        conv ++ [Message.mk "user" (transcriptTag x), Message.mk "assistant" t]) := by
  constructor
  · intro hx
    simp [stepConversation, handleInput, fileUploaderTab_appends, hx, hchat, ht]
  · intro hx
    simp [stepConversation, handleInput, audioRecorderTab_appends, hx, hchat, ht]

/-- Environment realizing Scenario C's faked transcript and translation. -/
def envScenarioC : Env :=
  Env.mk (fun _ => some "Bonjour") (fun _ => some "Good morning") (fun _ => none)

/-- Witness for amended C5 at Scenario C. -/
theorem audio_success_two_entries_witness :
    stepConversation envScenarioC [] (InputEvent.fileUpload "morning.wav" [0]) =
      [] ++ [Message.mk "user" (transcriptTag "Good morning"),
        Message.mk "assistant" "Bonjour"] :=
  (audio_success_two_entries envScenarioC [] "morning.wav" [0]
    "Good morning" "Bonjour" rfl (by decide)).1 rfl

end App

namespace App

/-- Claim C6: in every input mode, no speech-synthesis call precedes the first
assistant append (the translation is on the conversation before synthesis is
attempted); if translation always fails no synthesis call is issued at all; and
the appended entries do not depend on the speech endpoint, so a synthesis
failure leaves the conversation update intact. -/
theorem speech_synthesis_discipline (env : Env) (inp : InputEvent) :
    noSpeechBeforeAssistant (handleInput env inp) = true ∧
    ((∀ r, env.chat_completions_create r = none) →
      hasSpeechCall (handleInput env inp) = false) ∧
    (∀ tts, appendedMessages (handleInput
        (Env.mk env.chat_completions_create env.transcriptions_create tts) inp) =
      appendedMessages (handleInput env inp)) := by
  refine ⟨?_, ?_, ?_⟩
  · cases inp with
    | textInput p =>
        rcases h : env.chat_completions_create (chatRequestFor p) with _ | t
        · simp [handleInput, chatTab, translate_text, h, noSpeechBeforeAssistant]
        · by_cases ht : t = "" <;>
            simp [handleInput, chatTab, translate_text, h, ht, noSpeechBeforeAssistant]
    | fileUpload n b =>
        rcases hx : env.transcriptions_create
            (TranscriptionRequest.mk "whisper-1" "uploaded_audio.wav" b) with _ | x
        · simp [handleInput, fileUploaderTab, hx, noSpeechBeforeAssistant]
        · rcases h : env.chat_completions_create (chatRequestFor x) with _ | t
          · simp [handleInput, fileUploaderTab, translate_text, hx, h,
              noSpeechBeforeAssistant]
          · by_cases ht : t = "" <;>
              simp [handleInput, fileUploaderTab, translate_text, hx, h, ht,
                noSpeechBeforeAssistant]
    | micRecording b =>
        rcases hx : env.transcriptions_create
            (TranscriptionRequest.mk "whisper-1" "recorded_audio.wav" b) with _ | x
        · simp [handleInput, audioRecorderTab, hx, noSpeechBeforeAssistant]
        · rcases h : env.chat_completions_create (chatRequestFor x) with _ | t
          · simp [handleInput, audioRecorderTab, translate_text, hx, h,
              noSpeechBeforeAssistant]
          · by_cases ht : t = "" <;>
              simp [handleInput, audioRecorderTab, translate_text, hx, h, ht,
                noSpeechBeforeAssistant]
  · intro hall
    cases inp with
    | textInput p =>
        simp [handleInput, chatTab, translate_text, hall, hasSpeechCall, isSpeechCall]
    | fileUpload n b =>
        rcases hx : env.transcriptions_create
            (TranscriptionRequest.mk "whisper-1" "uploaded_audio.wav" b) with _ | x
        · simp [handleInput, fileUploaderTab, hx, hasSpeechCall, isSpeechCall]
        · simp [handleInput, fileUploaderTab, translate_text, hx, hall,
            hasSpeechCall, isSpeechCall]
    | micRecording b =>
        rcases hx : env.transcriptions_create
            (TranscriptionRequest.mk "whisper-1" "recorded_audio.wav" b) with _ | x
        · simp [handleInput, audioRecorderTab, hx, hasSpeechCall, isSpeechCall]
        · simp [handleInput, audioRecorderTab, translate_text, hx, hall,
            hasSpeechCall, isSpeechCall]
  · intro tts
    cases inp with
    | textInput p =>
        simp [handleInput, chatTab_appends]
    | fileUpload n b =>
        simp [handleInput, fileUploaderTab_appends]
    | micRecording b =>
        simp [handleInput, audioRecorderTab_appends]

/-- Witness for C6: with every translation call failing, no synthesis call is
issued on a concrete text interaction. -/
theorem speech_synthesis_discipline_witness :
    hasSpeechCall (handleInput envAllFail (InputEvent.textInput "Hello")) = false :=
  (speech_synthesis_discipline envAllFail (InputEvent.textInput "Hello")).2.1
    (fun _ => rfl)

/-- Whether an event, if it is a chat-completion call, carries exactly two
messages: the fixed system instruction then a single user turn. -/
def chatCallTwoMessages : Event → Bool
  | Event.chatCall r =>
      match r.messages with
      | [m1, m2] => m1.role == "system" && m1.content == system_prompt && m2.role == "user"
      | _ => false
  | _ => true

/-- The request built for any single utterance passes the two-message check. -/
theorem chatCallTwoMessages_chatRequestFor (s : String) :
    chatCallTwoMessages (Event.chatCall (chatRequestFor s)) = true := by
  simp [chatCallTwoMessages, chatRequestFor, translate_messages]

/-- Claim C7: every chat-completion request issued in any input mode holds
exactly two messages — the fixed system instruction and one user turn — and
the request builder produces exactly that two-message list; the accumulated
conversation is never sent (no handler even receives it). -/
theorem translation_call_stateless (env : Env) (inp : InputEvent) (u : String) :
    (handleInput env inp).all chatCallTwoMessages = true ∧
    translate_messages u = [Message.mk "system" system_prompt, Message.mk "user" u] ∧
    (translate_messages u).length = 2 := by
  refine ⟨?_, rfl, rfl⟩
  cases inp with
  | textInput p =>
      rcases h : env.chat_completions_create (chatRequestFor p) with _ | t
      · simp [handleInput, chatTab, translate_text, h,
          chatCallTwoMessages] <;>
            simp [chatRequestFor, translate_messages]
      · by_cases ht : t = ""
        · simp [handleInput, chatTab, translate_text, h, ht,
            chatCallTwoMessages] <;>
            simp [chatRequestFor, translate_messages]
        · rcases hs : env.speech_create (speechRequestFor t) with _ | b
          · simp [handleInput, chatTab, translate_text, speak_text, h, hs, ht,
              chatCallTwoMessages] <;>
            simp [chatRequestFor, translate_messages]
          · by_cases hb : b = [] <;>
              simp [handleInput, chatTab, translate_text, speak_text, h, hs, ht, hb,
                chatCallTwoMessages] <;>
            simp [chatRequestFor, translate_messages]
  | fileUpload n b =>
      rcases hx : env.transcriptions_create
          (TranscriptionRequest.mk "whisper-1" "uploaded_audio.wav" b) with _ | x
      · simp [handleInput, fileUploaderTab, hx, chatCallTwoMessages]
      · rcases h : env.chat_completions_create (chatRequestFor x) with _ | t
        · simp [handleInput, fileUploaderTab, translate_text, hx, h,
            chatCallTwoMessages] <;>
            simp [chatRequestFor, translate_messages]
        · by_cases ht : t = ""
          · simp [handleInput, fileUploaderTab, translate_text, hx, h, ht,
              chatCallTwoMessages] <;>
            simp [chatRequestFor, translate_messages]
          · rcases hs : env.speech_create (speechRequestFor t) with _ | bb
            · simp [handleInput, fileUploaderTab, translate_text, speak_text, hx, h,
                hs, ht, chatCallTwoMessages] <;>
            simp [chatRequestFor, translate_messages]
            · by_cases hb : bb = [] <;>
                simp [handleInput, fileUploaderTab, translate_text, speak_text, hx, h,
                  hs, ht, hb, chatCallTwoMessages] <;>
            simp [chatRequestFor, translate_messages]
  | micRecording b =>
      rcases hx : env.transcriptions_create
          (TranscriptionRequest.mk "whisper-1" "recorded_audio.wav" b) with _ | x
      · simp [handleInput, audioRecorderTab, hx, chatCallTwoMessages]
      · rcases h : env.chat_completions_create (chatRequestFor x) with _ | t
        · simp [handleInput, audioRecorderTab, translate_text, hx, h,
            chatCallTwoMessages] <;>
            simp [chatRequestFor, translate_messages]
        · by_cases ht : t = ""
          · simp [handleInput, audioRecorderTab, translate_text, hx, h, ht,
              chatCallTwoMessages] <;>
            simp [chatRequestFor, translate_messages]
          · rcases hs : env.speech_create (speechRequestFor t) with _ | bb
            · simp [handleInput, audioRecorderTab, translate_text, speak_text, hx, h,
                hs, ht, chatCallTwoMessages] <;>
            simp [chatRequestFor, translate_messages]
            · by_cases hb : bb = [] <;>
                simp [handleInput, audioRecorderTab, translate_text, speak_text, hx, h,
                  hs, ht, hb, chatCallTwoMessages] <;>
            simp [chatRequestFor, translate_messages]

/-- Claim C10: when the transcription endpoint answers the upload request and
the recorder request identically, the two audio flows append exactly the same
entries in the same order (the later calls already coincide, both being built
from the shared transcript). -/
theorem upload_recorder_equivalent_updates (env : Env) (uploaded_name : String)
    (audio_bytes : List Nat)
    (h : env.transcriptions_create
        (TranscriptionRequest.mk "whisper-1" "uploaded_audio.wav" audio_bytes) =
      env.transcriptions_create
        (TranscriptionRequest.mk "whisper-1" "recorded_audio.wav" audio_bytes)) :
    appendedMessages (fileUploaderTab env uploaded_name audio_bytes) =
      appendedMessages (audioRecorderTab env audio_bytes) := by
  rw [fileUploaderTab_appends, audioRecorderTab_appends, h]

/-- Witness for C10 at Scenario C's environment, whose transcription endpoint
is constant, hence answers both requests identically. -/
theorem upload_recorder_equivalent_updates_witness :
    appendedMessages (fileUploaderTab envScenarioC "morning.wav" [0]) =
      appendedMessages (audioRecorderTab envScenarioC [0]) :=
  upload_recorder_equivalent_updates envScenarioC "morning.wav" [0] rfl

end App
